import Mathlib

/-!
Verification of the DC-only JPEG decoder in `motion_stb_image.h`
(repository 350d/motion-detector).

The C code is shallowly embedded: the byte source (`motion_stbi_context` /
`motion_stbi_get8`) becomes a `List Nat` of remaining bytes, where reading
past end-of-stream yields the sentinel byte 0 exactly as `motion_stbi_get8`
returns 0 once the file buffer is exhausted; C structs become Lean
structures; in-place mutation becomes explicit state passing; functions that
signal failure through `motion_stbi_err` plus a NULL return become
`Except String` with the same error strings.  Machine integers that can go
negative (`int marker_len` in the DHT/DQT loops, DC predictors, the skip
count in the SOS header) are `Int`; byte and size quantities are `Nat`
(none of the C expressions involved can overflow their C types within the
validated bounds: buffers are at most 1000*1000*4 bytes, upsampled buffers
at most 8000*8000*4 < 2^31).

The marker-dispatch `while (1)` loops of `motion_jpeg_load_dc_only` and
`motion_stbi_test_dc_compatibility` are embedded with a fuel parameter; the
top-level entry points pass `bytes.length + 1` fuel, which can never be
exhausted because every loop iteration that continues consumes at least one
byte of the stream (an empty stream produces marker 0x0000, which hits the
"bad marker" exit).
-/

deriving instance DecidableEq for Except

/-! ## Byte-stream primitives (`motion_stbi_get8`, `motion_stbi_get16be`,
`motion_stbi_skip`) -/

/-- `motion_stbi_get8`: next byte, or the 0 sentinel at end of stream. -/
def motion_stbi_get8 : List Nat → Nat × List Nat
  | [] => (0, [])
  | b :: r => (b, r)

/-- `motion_stbi_get16be`: big-endian 16-bit read, two `get8`s. -/
def motion_stbi_get16be (bytes : List Nat) : Nat × List Nat :=
  let (z, r1) := motion_stbi_get8 bytes
  let (b, r2) := motion_stbi_get8 r1
  ((z <<< 8) + b, r2)

/-- `motion_stbi_skip`: skip `n` bytes; a negative count is a no-op, and
skipping past end-of-stream just exhausts the stream. -/
def motion_stbi_skip (n : Int) (bytes : List Nat) : List Nat :=
  bytes.drop n.toNat

/-- Read `n` raw bytes into a list (the `for` loops filling
`ht->code_size[1..16]` and `ht->huffval[]`). Past end-of-stream this pads
with the 0 sentinel, as repeated `motion_stbi_get8` does. -/
def motion_read_bytes : Nat → List Nat → List Nat × List Nat
  | 0, bytes => ([], bytes)
  | n + 1, bytes =>
    let (b, r1) := motion_stbi_get8 bytes
    let (rest, r2) := motion_read_bytes n r1
    (b :: rest, r2)

/-- Read `n` quantization coefficients, 16-bit big-endian when
`prec16` is set, single bytes otherwise (`motion_jpeg_parse_dqt` body). -/
def motion_read_quant : Bool → Nat → List Nat → List Nat × List Nat
  | _, 0, bytes => ([], bytes)
  | prec16, n + 1, bytes =>
    let (v, r1) := if prec16 then motion_stbi_get16be bytes else motion_stbi_get8 bytes
    let (rest, r2) := motion_read_quant prec16 n r1
    (v :: rest, r2)

/-! ## Data structures -/

/-- `motion_huffman_table`: per-length code counts (index 1..16; index 0 of
the C array is never written and stays 0), the flat symbol list, and the
canonical code values filled in by `motion_jpeg_build_huffman_table`.
Entries of the C arrays beyond `num_codes` keep their `memset` value 0,
which the embedding reproduces through `List.getD _ _ 0`. -/
structure motion_huffman_table where
  code_size : List Nat
  code_value : List Nat
  huffval : List Nat
  num_codes : Nat
deriving Repr, DecidableEq

/-- A freshly `memset` huffman table slot. -/
def motion_huffman_empty : motion_huffman_table :=
  { code_size := List.replicate 17 0, code_value := [], huffval := [], num_codes := 0 }

/-- `motion_jpeg_decoder` (the fields the DC-only pipeline touches;
`mcu_w`/`mcu_h` are the constants 8 and are kept for fidelity).
Component arrays have the fixed C size `MOTION_JPEG_MAX_COMPONENTS = 4`,
`dc_huffman` has 2 slots, `quant_table` 4 rows of 64. -/
structure motion_jpeg_decoder where
  width : Nat
  height : Nat
  components : Nat
  precision : Nat
  comp_id : List Nat
  comp_h : List Nat
  comp_v : List Nat
  comp_quant : List Nat
  comp_dc_table : List Nat
  dc_huffman : List motion_huffman_table
  quant_table : List (List Nat)
  mcu_w : Nat
  mcu_h : Nat
  mcus_per_row : Nat
  mcus_per_col : Nat
  dc_pred : List Int
deriving Repr, DecidableEq

/-- The decoder after `memset(&j, 0, sizeof(j))`. -/
def motion_jpeg_decoder_init : motion_jpeg_decoder :=
  { width := 0, height := 0, components := 0, precision := 0
    comp_id := [0, 0, 0, 0], comp_h := [0, 0, 0, 0], comp_v := [0, 0, 0, 0]
    comp_quant := [0, 0, 0, 0], comp_dc_table := [0, 0, 0, 0]
    dc_huffman := [motion_huffman_empty, motion_huffman_empty]
    quant_table := List.replicate 4 (List.replicate 64 0)
    mcu_w := 0, mcu_h := 0, mcus_per_row := 0, mcus_per_col := 0
    dc_pred := [0, 0, 0, 0] }

/-! ## `motion_jpeg_parse_sof` -/

/-- The component-spec reading loop inside `motion_jpeg_parse_sof`:
for each component `i`, read id, packed sampling factors, and the
quantization-table selector. -/
def motion_sof_read_comps : motion_jpeg_decoder → Nat → Nat → List Nat →
    motion_jpeg_decoder × List Nat
  | j, _, 0, bytes => (j, bytes)
  | j, i, n + 1, bytes =>
    let (cid, r1) := motion_stbi_get8 bytes
    let (sampling, r2) := motion_stbi_get8 r1
    let (cq, r3) := motion_stbi_get8 r2
    motion_sof_read_comps
      { j with comp_id := j.comp_id.set i cid
               comp_h := j.comp_h.set i ((sampling >>> 4) &&& 15)
               comp_v := j.comp_v.set i (sampling &&& 15)
               comp_quant := j.comp_quant.set i cq }
      (i + 1) n r3

/-- `motion_jpeg_parse_sof`: frame header parsing.  Rejects more than 4
components ("too many components") and an inconsistent marker length
("bad SOF marker"); computes the MCU grid as ceil(width/8) x ceil(height/8).
Note it does NOT validate that width/height are nonzero nor that the grid
fits 1000 x 1000 — those checks live in the caller `motion_jpeg_load_dc_only`
only, not in the probe. -/
def motion_jpeg_parse_sof (j : motion_jpeg_decoder) (bytes : List Nat) :
    Except String (motion_jpeg_decoder × List Nat) :=
  let (marker_len, r1) := motion_stbi_get16be bytes
  let (precision, r2) := motion_stbi_get8 r1
  let (height, r3) := motion_stbi_get16be r2
  let (width, r4) := motion_stbi_get16be r3
  let (components, r5) := motion_stbi_get8 r4
  if 4 < components then .error "too many components"
  else if marker_len ≠ 8 + 3 * components then .error "bad SOF marker"
  else
    let (j1, r6) := motion_sof_read_comps
      { j with precision := precision, height := height, width := width,
               components := components } 0 components r5
    .ok ({ j1 with mcu_w := 8, mcu_h := 8
                   mcus_per_row := (width + 8 - 1) / 8
                   mcus_per_col := (height + 8 - 1) / 8 }, r6)

/-! ## `motion_jpeg_parse_dht` -/

/-- The `while (marker_len > 17)` loop of `motion_jpeg_parse_dht`.
An AC-class table terminates the marker's parsing successfully after
skipping the rest; a DC table id >= 2 is "bad table id"; more than 256
total codes is "too many huffman codes".  The first argument is structural
fuel: every iteration lowers `marker_len` by at least 17, so the caller's
fuel (the marker length itself) can never be exhausted, and the fuel-0
value coincides with the loop-exit value. -/
def motion_parse_dht_loop : Nat → motion_jpeg_decoder → Int → List Nat →
    Except String (motion_jpeg_decoder × List Nat)
  | 0, j, _, bytes => .ok (j, bytes)
  | fuel + 1, j, marker_len, bytes =>
    if 17 < marker_len then
      let (table_info, r1) := motion_stbi_get8 bytes
      let table_class := (table_info >>> 4) &&& 1
      let table_id := table_info &&& 15
      if table_class ≠ 0 then .ok (j, motion_stbi_skip (marker_len - 1) r1)
      else if 2 ≤ table_id then .error "bad table id"
      else
        let (counts, r2) := motion_read_bytes 16 r1
        let code_count := counts.sum
        if 256 < code_count then .error "too many huffman codes"
        else
          let (vals, r3) := motion_read_bytes code_count r2
          let ht0 := j.dc_huffman.getD table_id motion_huffman_empty
          let ht := { ht0 with code_size := 0 :: counts
                               huffval := vals
                               num_codes := code_count }
          motion_parse_dht_loop fuel
            { j with dc_huffman := j.dc_huffman.set table_id ht }
            (marker_len - 17 - code_count) r3
    else .ok (j, bytes)

/-- `motion_jpeg_parse_dht`: reads the marker length and runs the table loop. -/
def motion_jpeg_parse_dht (j : motion_jpeg_decoder) (bytes : List Nat) :
    Except String (motion_jpeg_decoder × List Nat) :=
  let (marker_len, r1) := motion_stbi_get16be bytes
  motion_parse_dht_loop marker_len j ((marker_len : Int) - 2) r1

/-! ## `motion_jpeg_parse_dqt` -/

/-- The `while (marker_len >= 65)` loop of `motion_jpeg_parse_dqt`.
`table_id = table_info & 3` makes the `table_id >= 4` check dead, as in the
source. -/
def motion_parse_dqt_loop : Nat → motion_jpeg_decoder → Int → List Nat →
    Except String (motion_jpeg_decoder × List Nat)
  | 0, j, _, bytes => .ok (j, bytes)
  | fuel + 1, j, marker_len, bytes =>
    if 65 ≤ marker_len then
      let (table_info, r1) := motion_stbi_get8 bytes
      let prec16 := ((table_info >>> 4) &&& 1) ≠ 0
      let table_id := table_info &&& 3
      if 4 ≤ table_id then .error "bad table id"
      else
        let (vals, r2) := motion_read_quant prec16 64 r1
        motion_parse_dqt_loop fuel
          { j with quant_table := j.quant_table.set table_id vals }
          (marker_len - ((if prec16 then 128 else 64) + 1)) r2
    else .ok (j, bytes)

/-- `motion_jpeg_parse_dqt`: reads the marker length and runs the table loop
(every iteration lowers `marker_len` by at least 65, so `marker_len` itself
is always enough fuel, and the fuel-0 value coincides with the loop-exit
value). -/
def motion_jpeg_parse_dqt (j : motion_jpeg_decoder) (bytes : List Nat) :
    Except String (motion_jpeg_decoder × List Nat) :=
  let (marker_len, r1) := motion_stbi_get16be bytes
  motion_parse_dqt_loop marker_len j ((marker_len : Int) - 2) r1

/-! ## `motion_jpeg_build_huffman_table` (canonical code assignment) -/

/-- The canonical code values produced by `motion_jpeg_build_huffman_table`
starting at length `i` with current running code `code`: the `cs[i]` symbols
of length `i` receive `code, code+1, ...`, then the code is incremented by
`cs[i]` and left-shifted by one before length `i+1`.  `cs` is the
`code_size` array (index 1..16).  The running code lives in a C `int`,
which cannot overflow here (with at most 256 codes it stays below 2^26),
but each STORED value is truncated into the `motion_stbi_uint16
code_value[]` array, i.e. reduced mod 2^16 — for degenerate,
parser-accepted count vectors the running code can reach 65536 within the
16 lengths and the stored value wraps to 0. -/
def motion_build_codes_from (cs : List Nat) : Nat → Nat → Nat → List Nat
  | _, _, 0 => []
  | code, i, rem + 1 =>
    (List.range (cs.getD i 0)).map (fun t => (code + t) % 65536) ++
      motion_build_codes_from cs ((code + cs.getD i 0) <<< 1) (i + 1) rem

/-- The full run of the assignment loop, lengths 1 through 16 (`rem` in
`motion_build_codes_from` counts the lengths still to process, 16 of
them). -/
def motion_build_codes (cs : List Nat) : List Nat :=
  motion_build_codes_from cs 0 1 16

/-- `motion_jpeg_build_huffman_table`: fills `code_value` from `code_size`
(the C function also returns 1 unconditionally; in the embedding this is a
total function). -/
def motion_jpeg_build_huffman_table (ht : motion_huffman_table) :
    motion_huffman_table :=
  { ht with code_value := motion_build_codes ht.code_size }

/-- Spec-side closed form of the running code at the start of length `L`
(the shift-and-increment rule of spec section 4.3): the starting code of
length 1 is 0, and the starting code of length L+1 is
(starting code of L + count[L]) * 2. -/
def motion_code_start (cs : List Nat) : Nat → Nat
  | 0 => 0
  | 1 => 0
  | n + 2 => (motion_code_start cs (n + 1) + cs.getD (n + 1) 0) * 2

/-- Number of symbols of lengths strictly below `L` (positions
`0 .. L-2` of the per-length counts, i.e. lengths `1 .. L-1`); the index
of the first length-`L` symbol in the flat symbol order. -/
def motion_code_offset (cs : List Nat) (L : Nat) : Nat :=
  (((List.range (L - 1)).map fun t => cs.getD (t + 1) 0)).sum

/-! ## Bit reader -/

/-- `motion_bit_reader`: 32-bit shift register (its value never exceeds
255 <<< 8 within one byte's reads, so plain `Nat` is exact), count of bits
left, and the remaining entropy-coded byte stream. -/
structure motion_bit_reader where
  bit_buffer : Nat
  bits_left : Nat
  stream : List Nat
deriving Repr, DecidableEq

/-- `motion_bit_reader_init`. -/
def motion_bit_reader_init (stream : List Nat) : motion_bit_reader :=
  { bit_buffer := 0, bits_left := 0, stream := stream }

/-- `motion_bit_reader_get_bit`: refills from the next byte when empty,
dropping a 0x00 stuffing byte after a literal 0xFF; an 0xFF followed by a
non-zero byte (a marker) makes THIS call return 0 after consuming both
bytes, but sets no terminal state — `bits_left` stays 0 and the next call
reads further bytes (the source comments "we'll treat this as end of data"
but stores nothing). Otherwise returns the most significant bit of the
shift register. -/
def motion_bit_reader_get_bit (br : motion_bit_reader) :
    Nat × motion_bit_reader :=
  if br.bits_left = 0 then
    let (byte, s1) := motion_stbi_get8 br.stream
    if byte = 0xFF then
      let (next, s2) := motion_stbi_get8 s1
      if next ≠ 0x00 then
        (0, { br with stream := s2 })
      else
        let bit := (byte >>> 7) &&& 1
        (bit, { bit_buffer := byte <<< 1, bits_left := 7, stream := s2 })
    else
      let bit := (byte >>> 7) &&& 1
      (bit, { bit_buffer := byte <<< 1, bits_left := 7, stream := s1 })
  else
    let bit := (br.bit_buffer >>> 7) &&& 1
    (bit, { br with bit_buffer := br.bit_buffer <<< 1, bits_left := br.bits_left - 1 })

/-- `motion_bit_reader_get_bits`: `n` bits assembled most significant
first. -/
def motion_bit_reader_get_bits (br : motion_bit_reader) : Nat →
    Nat × motion_bit_reader
  | 0 => (0, br)
  | n + 1 =>
    let (b, br1) := motion_bit_reader_get_bit br
    let (rest, br2) := motion_bit_reader_get_bits br1 n
    ((b <<< n) + rest, br2)

/-! ## `motion_jpeg_decode_huffman` -/

/-- The inner linear scan of `motion_jpeg_decode_huffman`: compare `code`
against `code_value[base], code_value[base+1], ...` (`cnt` entries) and
return the matching `huffval` entry, first match wins. -/
def motion_huff_scan (ht : motion_huffman_table) (code base : Nat) :
    Nat → Option Nat
  | 0 => none
  | cnt + 1 =>
    if ht.code_value.getD base 0 = code then some (ht.huffval.getD base 0)
    else motion_huff_scan ht code (base + 1) cnt

/-- The `for (code_len = 1; code_len <= 16; ...)` loop of
`motion_jpeg_decode_huffman`: shift in one more bit, scan the codes of the
current length, return the symbol on a match and -1 after length 16. -/
def motion_decode_huffman_from (ht : motion_huffman_table) :
    Nat → Nat → Nat → motion_bit_reader → Int × motion_bit_reader
  | _, _, 0, br => (-1, br)
  | code, code_len, rem + 1, br =>
    let (b, br1) := motion_bit_reader_get_bit br
    let code' := (code <<< 1) ||| b
    let base := motion_code_offset ht.code_size code_len
    match motion_huff_scan ht code' base (ht.code_size.getD code_len 0) with
    | some v => ((v : Int), br1)
    | none => motion_decode_huffman_from ht code' (code_len + 1) rem br1

/-- `motion_jpeg_decode_huffman`: decode one symbol (or -1 on failure
after 16 bits — the last argument of `motion_decode_huffman_from` counts
the code lengths still to try). -/
def motion_jpeg_decode_huffman (br : motion_bit_reader)
    (ht : motion_huffman_table) : Int × motion_bit_reader :=
  motion_decode_huffman_from ht 0 1 16 br

/-! ## DC differential and the entropy-decode loop -/

/-- Clamp an integer into `[lo, hi]` (the predictor and pixel clamps of
`motion_stbi_decode_jpeg_dc_only`). -/
def motion_clamp (v lo hi : Int) : Int :=
  if v < lo then lo else if hi < v then hi else v

/-- The two's-complement threshold rule of the DC differential
(`motion_stbi_decode_jpeg_dc_only`, the `if (dc_diff < (1 << (symbol - 1)))`
branch): `raw` is the `symbol`-bit unsigned value read from the stream. -/
def motion_dc_diff (symbol raw : Nat) : Int :=
  if (raw : Int) < ((1 <<< (symbol - 1) : Nat) : Int)
  then (raw : Int) - ((1 <<< symbol : Nat) - 1 : Int)
  else (raw : Int)

/-- The low-resolution output buffer size `out_w * out_h * components`
(`buffer_size` in `motion_stbi_decode_jpeg_dc_only`; `out_w` is
`mcus_per_row`, `out_h` is `mcus_per_col`). -/
def motion_decode_buffer_size (j : motion_jpeg_decoder) : Nat :=
  j.mcus_per_row * j.mcus_per_col * j.components

/-- The output buffer right after `memset(j->output, 128, buffer_size)`:
fully initialized to neutral gray before any decode write. -/
def motion_decode_init_buffer (j : motion_jpeg_decoder) : List Nat :=
  List.replicate (motion_decode_buffer_size j) 128

/-- The store index `(mcu_y * out_w + mcu_x) * components + comp` used for
every write into the DC output buffer. -/
def motion_out_idx (j : motion_jpeg_decoder) (mcu_y mcu_x comp : Nat) : Nat :=
  (mcu_y * j.mcus_per_row + mcu_x) * j.components + comp

/-- Mutable state threaded through the MCU loop of
`motion_stbi_decode_jpeg_dc_only`: the per-component DC predictors
(`j->dc_pred`), the output buffer (`j->output`), and the bit reader. -/
structure motion_entropy_state where
  dc_pred : List Int
  out : List Nat
  br : motion_bit_reader
deriving Repr, DecidableEq

/-- One iteration of the innermost loop of `motion_stbi_decode_jpeg_dc_only`
(one DC coefficient of component `comp` in MCU `(mcu_y, mcu_x)`).  Each
`continue` of the C code is a path that returns the state unchanged apart
from the bits already consumed. The `dc_diff < 0` check after
`motion_bit_reader_get_bits` is dead (the assembled value is a sum of bits)
and is not represented. -/
def motion_decode_coeff (j : motion_jpeg_decoder) (mcu_y mcu_x comp : Nat)
    (st : motion_entropy_state) : motion_entropy_state :=
  if 4 ≤ comp then st
  else
    let dc_table := j.comp_dc_table.getD comp 0
    if 2 ≤ dc_table then st
    else
      let ht := j.dc_huffman.getD dc_table motion_huffman_empty
      if ht.num_codes = 0 then st
      else
        let (symbol, br1) := motion_jpeg_decode_huffman st.br ht
        if symbol < 0 ∨ 15 < symbol then { st with br := br1 }
        else
          let (dc_diff, br2) :=
            if 0 < symbol then
              let (raw, br2) := motion_bit_reader_get_bits br1 symbol.toNat
              (motion_dc_diff symbol.toNat raw, br2)
            else ((0 : Int), br1)
          let new_pred := motion_clamp (st.dc_pred.getD comp 0 + dc_diff) (-32768) 32767
          let preds := st.dc_pred.set comp new_pred
          let quant_table_id := j.comp_quant.getD comp 0
          if 4 ≤ quant_table_id then { st with dc_pred := preds, br := br2 }
          else
            let q0 := ((j.quant_table.getD quant_table_id []).getD 0 0 : Int)
            let dc_value := motion_clamp (new_pred * q0 + 128) 0 255
            let idx := motion_out_idx j mcu_y mcu_x comp
            if idx < motion_decode_buffer_size j then
              { dc_pred := preds, out := st.out.set idx dc_value.toNat, br := br2 }
            else { st with dc_pred := preds, br := br2 }

/-- The triple MCU loop of `motion_stbi_decode_jpeg_dc_only`: rows outer,
columns inner, components innermost. -/
def motion_decode_mcu_loop (j : motion_jpeg_decoder)
    (st0 : motion_entropy_state) : motion_entropy_state :=
  (List.range j.mcus_per_col).foldl (fun st mcu_y =>
    (List.range j.mcus_per_row).foldl (fun st mcu_x =>
      (List.range j.components).foldl (fun st comp =>
        motion_decode_coeff j mcu_y mcu_x comp st) st) st) st0

/-- `motion_stbi_decode_jpeg_dc_only`: validates the decoder state
(1..4 components, MCU grid within 1000 x 1000), zeroes the active DC
predictors, rejects a low-resolution buffer over 16 MiB ("output buffer too
large") BEFORE allocating it, initializes the buffer to 128, builds the
huffman code tables that have codes, and runs the MCU loop.  Returns the
output buffer. (`malloc` failure is not modelled; `motion_jpeg_build_huffman_table`
always succeeds, so the "huffman table build failed" path is dead.) -/
def motion_stbi_decode_jpeg_dc_only (j : motion_jpeg_decoder)
    (br : motion_bit_reader) : Except String (List Nat) :=
  if j.components = 0 ∨ 4 < j.components ∨
     j.mcus_per_row = 0 ∨ j.mcus_per_col = 0 ∨
     1000 < j.mcus_per_row ∨ 1000 < j.mcus_per_col then
    .error "invalid decoder state"
  else
    let preds0 := (List.range j.components).foldl (fun p i => p.set i 0) j.dc_pred
    if 16777216 < motion_decode_buffer_size j then .error "output buffer too large"
    else
      let j2 := { j with dc_huffman := j.dc_huffman.map fun ht =>
                    if ht.num_codes ≠ 0 then motion_jpeg_build_huffman_table ht else ht }
      let st := motion_decode_mcu_loop j2
        { dc_pred := preds0, out := motion_decode_init_buffer j, br := br }
      .ok st.out

/-! ## Marker dispatch loops -/

/-- The component-to-DC-table assignment loop of the SOS case in
`motion_jpeg_load_dc_only`: for each scan component, find the first frame
component with a matching id and record its DC table selector
`(tables >> 4) & 15`. -/
def motion_sos_assign (j : motion_jpeg_decoder) : Nat → List Nat →
    motion_jpeg_decoder × List Nat
  | 0, bytes => (j, bytes)
  | n + 1, bytes =>
    let (comp_id, r1) := motion_stbi_get8 bytes
    let (tables, r2) := motion_stbi_get8 r1
    let j' := match (List.range j.components).find?
        (fun c => j.comp_id.getD c 0 = comp_id) with
      | some c => { j with comp_dc_table := j.comp_dc_table.set c ((tables >>> 4) &&& 15) }
      | none => j
    motion_sos_assign j' n r2

/-- The post-SOF validation of `motion_jpeg_load_dc_only` ("invalid SOF
data" when it fails): positive dimensions, 1..4 components, MCU grid within
1000 x 1000. The probe performs NONE of these checks. -/
def motion_decode_sof_valid (j : motion_jpeg_decoder) : Bool :=
  0 < j.width && 0 < j.height && 0 < j.components && j.components ≤ 4 &&
    0 < j.mcus_per_row && 0 < j.mcus_per_col &&
    j.mcus_per_row ≤ 1000 && j.mcus_per_col ≤ 1000

/-- The `while (1)` marker loop of `motion_jpeg_load_dc_only`.  On SOS it
parses the scan header, skips its remainder, initializes a bit reader over
what is left of the stream and runs the DC entropy decode, returning
`(output, mcus_per_row, mcus_per_col, components)`.  Fuel `bytes.length + 1`
never runs out (each continuing iteration consumes a byte); the fuel-0 value
is an arbitrary error. -/
def motion_jpeg_dc_loop : Nat → motion_jpeg_decoder → List Nat →
    Except String (List Nat × Nat × Nat × Nat)
  | 0, _, _ => .error "bad marker"
  | fuel + 1, j, bytes =>
    let m := (motion_stbi_get16be bytes).1
    let r := (motion_stbi_get16be bytes).2
    if m = 0xFFD8 then motion_jpeg_dc_loop fuel j r
    else if m = 0xFFC0 then
      match motion_jpeg_parse_sof j r with
      | .error e => .error e
      | .ok (j', r') =>
        if motion_decode_sof_valid j' then motion_jpeg_dc_loop fuel j' r'
        else .error "invalid SOF data"
    else if m = 0xFFC4 then
      match motion_jpeg_parse_dht j r with
      | .error e => .error e
      | .ok (j', r') => motion_jpeg_dc_loop fuel j' r'
    else if m = 0xFFDB then
      match motion_jpeg_parse_dqt j r with
      | .error e => .error e
      | .ok (j', r') => motion_jpeg_dc_loop fuel j' r'
    else if m = 0xFFDA then
      let (scan_len, r1) := motion_stbi_get16be r
      let (scan_comps, r2) := motion_stbi_get8 r1
      let (j', r3) := motion_sos_assign j scan_comps r2
      let r4 := motion_stbi_skip ((scan_len : Int) - 2 - 1 - 2 * scan_comps) r3
      match motion_stbi_decode_jpeg_dc_only j' (motion_bit_reader_init r4) with
      | .error e => .error e
      | .ok out => .ok (out, j'.mcus_per_row, j'.mcus_per_col, j'.components)
    else if m = 0xFFD9 then .error "no image data found"
    else if m &&& 0xFF00 = 0xFF00 then
      let len := (motion_stbi_get16be r).1
      let r2 := (motion_stbi_get16be r).2
      if len < 2 then .error "bad marker"
      else motion_jpeg_dc_loop fuel j (r2.drop (len - 2))
    else .error "bad marker"

/-- `motion_jpeg_load_dc_only` over the file's bytes: the whole DC-only
pipeline (header parsing through entropy decode), returning
`(output, x, y, comp)` as the C function does through its out-parameters. -/
def motion_jpeg_load_dc_only (bytes : List Nat) :
    Except String (List Nat × Nat × Nat × Nat) :=
  motion_jpeg_dc_loop (bytes.length + 1) motion_jpeg_decoder_init bytes

/-- The marker loop of `motion_stbi_test_dc_compatibility`: identical
dispatch to the decode loop on the markers before SOF, but it STOPS at the
first SOF0, answering whether `motion_jpeg_parse_sof` succeeded, with no
further validation; SOS has no case of its own and is skipped like any
unknown 0xFFxx marker. -/
def motion_probe_loop : Nat → motion_jpeg_decoder → List Nat → Bool
  | 0, _, _ => false
  | fuel + 1, j, bytes =>
    let m := (motion_stbi_get16be bytes).1
    let r := (motion_stbi_get16be bytes).2
    if m = 0xFFD8 then motion_probe_loop fuel j r
    else if m = 0xFFC0 then
      match motion_jpeg_parse_sof j r with
      | .error _ => false
      | .ok _ => true
    else if m = 0xFFC4 then
      match motion_jpeg_parse_dht j r with
      | .error _ => false
      | .ok (j', r') => motion_probe_loop fuel j' r'
    else if m = 0xFFDB then
      match motion_jpeg_parse_dqt j r with
      | .error _ => false
      | .ok (j', r') => motion_probe_loop fuel j' r'
    else if m = 0xFFD9 then false
    else if m &&& 0xFF00 = 0xFF00 then
      let len := (motion_stbi_get16be r).1
      let r2 := (motion_stbi_get16be r).2
      if len < 2 then false else motion_probe_loop fuel j (r2.drop (len - 2))
    else false

/-- Proof-bridging walk shared by the probe/decode lockstep theorems (not
itself a C function): follows the exact pre-SOF dispatch common to
`motion_probe_loop` and `motion_jpeg_dc_loop` and stops at the first SOF0,
returning the remaining fuel, the decoder state with the parsed frame
header, the remaining bytes, and a flag recording whether an SOS marker was
skipped on the way (the probe skips SOS as an unknown marker; the decode
loop does not). -/
def motion_header_walk : Nat → motion_jpeg_decoder → List Nat →
    Option (Nat × motion_jpeg_decoder × List Nat × Bool)
  | 0, _, _ => none
  | fuel + 1, j, bytes =>
    let m := (motion_stbi_get16be bytes).1
    let r := (motion_stbi_get16be bytes).2
    if m = 0xFFD8 then motion_header_walk fuel j r
    else if m = 0xFFC0 then
      match motion_jpeg_parse_sof j r with
      | .error _ => none
      | .ok (j', r') => some (fuel, j', r', false)
    else if m = 0xFFC4 then
      match motion_jpeg_parse_dht j r with
      | .error _ => none
      | .ok (j', r') => motion_header_walk fuel j' r'
    else if m = 0xFFDB then
      match motion_jpeg_parse_dqt j r with
      | .error _ => none
      | .ok (j', r') => motion_header_walk fuel j' r'
    else if m = 0xFFD9 then none
    else if m = 0xFFDA then
      let len := (motion_stbi_get16be r).1
      let r2 := (motion_stbi_get16be r).2
      if len < 2 then none
      else
        match motion_header_walk fuel j (r2.drop (len - 2)) with
        | some (f', j', r', _) => some (f', j', r', true)
        | none => none
    else if m &&& 0xFF00 = 0xFF00 then
      let len := (motion_stbi_get16be r).1
      let r2 := (motion_stbi_get16be r).2
      if len < 2 then none else motion_header_walk fuel j (r2.drop (len - 2))
    else none

/-! ## `motion_stbi_is_jpeg` and the compatibility probe -/

/-- `motion_stbi_is_jpeg`: the extension after the LAST dot of the filename
must be exactly one of "jpg", "jpeg", "JPG", "JPEG" (`strrchr` + `strcmp`);
a name with no dot is not a JPEG. -/
def motion_stbi_is_jpeg (filename : String) : Bool :=
  let cs := filename.toList
  if cs.contains '.' then
    let ext := String.mk ((cs.reverse.takeWhile (fun c => c ≠ '.')).reverse)
    ext = "jpg" || ext = "jpeg" || ext = "JPG" || ext = "JPEG"
  else false

/-- `motion_stbi_test_dc_compatibility` over a filename and the file's
bytes: false for a non-JPEG extension, otherwise the probe marker loop.
(A file that cannot be opened also returns 0 in C; the embedding takes the
bytes as given.) -/
def motion_stbi_test_dc_compatibility (filename : String) (bytes : List Nat) :
    Bool :=
  if motion_stbi_is_jpeg filename then
    motion_probe_loop (bytes.length + 1) motion_jpeg_decoder_init bytes
  else false

/-! ## `motion_stbi_load`: upsampling and the single-slot cache -/

/-- `MOTION_MODE_FULL`. -/
def MOTION_MODE_FULL : Nat := 0
/-- `MOTION_MODE_DC_ONLY`. -/
def MOTION_MODE_DC_ONLY : Nat := 1
/-- `MOTION_MODE_QUARTER`. -/
def MOTION_MODE_QUARTER : Nat := 2
/-- `MOTION_MODE_HALF`. -/
def MOTION_MODE_HALF : Nat := 3

/-- `motion_buffer_t`: the single cache slot.  Note the struct has
`scale_factor` and `is_grayscale` fields but `motion_stbi_load` never sets
or consults them — in particular, no decode MODE is recorded in the slot.
The `data` pointer of a slot made by `motion_stbi_buffer_create` is always
non-null, so the `reuse_buffer->data` null check of the cache hit test is
not represented. -/
structure motion_buffer_t where
  data : List Nat
  width : Nat
  height : Nat
  channels : Nat
  capacity : Nat
  filename : String
  scale_factor : Nat
  is_grayscale : Nat
deriving Repr, DecidableEq

/-- A slot fresh from `motion_stbi_buffer_create`. -/
def motion_stbi_buffer_create (initial_capacity : Nat) : motion_buffer_t :=
  { data := [], width := 0, height := 0, channels := 0
    capacity := initial_capacity, filename := "", scale_factor := 1, is_grayscale := 0 }

/-- The row-major append loop shape shared by the upsampling loops of
`motion_stbi_load` (`for` over `n` indices, each contributing the block
`f k`, written at increasing offsets). -/
def motion_row_append (f : Nat → List Nat) : Nat → List Nat
  | 0 => []
  | n + 1 => motion_row_append f n ++ f n

/-- The nearest-neighbor upsampling of `motion_stbi_load`: every output
pixel `(x_out, y_out)` of every channel copies the DC sample of cell
`(x_out / 8, y_out / 8)` (the out-of-bounds gray branch of the source is
unreachable because `x_out < dc_w * 8` forces `x_out / 8 < dc_w`, and
likewise for rows). Byte reads from `img` follow C's unchecked indexing via
`List.getD _ _ 0`. -/
def motion_upsample_dc (img : List Nat) (dc_w dc_h dc_comp : Nat) : List Nat :=
  motion_row_append (fun y_out =>
    motion_row_append (fun x_out =>
      (List.range dc_comp).map (fun c =>
        if x_out / 8 < dc_w && y_out / 8 < dc_h then
          img.getD (((y_out / 8) * dc_w + x_out / 8) * dc_comp + c) 0
        else 128)) (dc_w * 8)) (dc_h * 8)

/-- The fallback-and-cache tail of `motion_stbi_load`: call the external
`stbi_load` collaborator (out of scope for this core, abstracted as the
`fallback` argument), and on success with a slot present, replace the slot.
(`motion_stbi_buffer_resize`'s `realloc` is modelled as always
succeeding.) -/
def motion_load_fallback (fallback : String → Option (Nat × Nat × Nat × List Nat))
    (filename : String) (reuse : Option motion_buffer_t) :
    Option (Nat × Nat × Nat × List Nat) × Option motion_buffer_t :=
  match fallback filename with
  | some (w, h, c, data) =>
    (some (w, h, c, data),
     match reuse with
     | some b => some { b with data := data, width := w, height := h,
                               channels := c, capacity := w * h * c,
                               filename := filename }
     | none => none)
  | none => (none, reuse)

/-- The body of `motion_stbi_load` past the cache-hit test: in DC-only mode
on a `.jpg` name it runs the DC pipeline, validates the low-resolution
dimensions, upsamples by 8 in each axis, refreshes the slot, and returns;
on any failure of that path it falls back to the external full loader. -/
def motion_stbi_load_miss (fallback : String → Option (Nat × Nat × Nat × List Nat))
    (filename : String) (bytes : List Nat) (motion_mode : Nat)
    (reuse : Option motion_buffer_t) :
    Option (Nat × Nat × Nat × List Nat) × Option motion_buffer_t :=
  if motion_mode = MOTION_MODE_DC_ONLY ∧ motion_stbi_is_jpeg filename then
    match motion_jpeg_load_dc_only bytes with
    | .ok (img, dc_x, dc_y, dc_comp) =>
      if 0 < dc_x ∧ 0 < dc_y ∧ 0 < dc_comp ∧ dc_comp ≤ 4 then
        let dc_w := dc_x
        let dc_h := dc_y
        let full_w := dc_w * 8
        let full_h := dc_h * 8
        if dc_w = 0 ∨ dc_h = 0 ∨ 1000 < dc_w ∨ 1000 < dc_h ∨
           full_w = 0 ∨ full_h = 0 ∨ 8000 < full_w ∨ 8000 < full_h then
          motion_load_fallback fallback filename reuse
        else
          let upsampled := motion_upsample_dc img dc_w dc_h dc_comp
          (some (full_w, full_h, dc_comp, upsampled),
           match reuse with
           | some b => some { b with data := upsampled, width := full_w,
                                     height := full_h, channels := dc_comp,
                                     capacity := full_w * full_h * dc_comp,
                                     filename := filename }
           | none => none)
      else motion_load_fallback fallback filename reuse
    | .error _ => motion_load_fallback fallback filename reuse
  else motion_load_fallback fallback filename reuse

/-- `motion_stbi_load` over a filename, the file's bytes, a mode and the
cache slot; returns the result `(x, y, comp, pixels)` (or none where C
returns NULL) together with the cache slot's new contents.  The cache hit
test compares ONLY the stored filename (non-empty and equal to the
request's): the mode is not consulted. -/
def motion_stbi_load (fallback : String → Option (Nat × Nat × Nat × List Nat))
    (filename : String) (bytes : List Nat) (motion_mode : Nat)
    (reuse : Option motion_buffer_t) :
    Option (Nat × Nat × Nat × List Nat) × Option motion_buffer_t :=
  match reuse with
  | some b =>
    if 0 < b.filename.length ∧ b.filename = filename then
      (some (b.width, b.height, b.channels, b.data), some b)
    else motion_stbi_load_miss fallback filename bytes motion_mode reuse
  | none => motion_stbi_load_miss fallback filename bytes motion_mode reuse

/-! ## Error kinds (spec section 7) and concrete test inputs -/

/-- The error kinds of spec section 7. -/
inductive MotionErrKind where
  | ioError
  | headerError
  | tableError
  | resourceLimitExceeded
  | unsupportedFeature
  | other
deriving Repr, DecidableEq

/-- Classification of the `motion_stbi_err` strings of the source into the
spec's error kinds: malformed/unsupported marker structure (including the
post-SOF "invalid SOF data" validation and the decoder-state validation of
the entropy decoder, both covering the spec's component-count and MCU-grid
guards at SOF) is `headerError`; huffman/quantization table failures are
`tableError`; the output-buffer cap is `resourceLimitExceeded`. -/
def motion_error_kind (e : String) : MotionErrKind :=
  if e = "bad SOF marker" ∨ e = "too many components" ∨ e = "invalid SOF data" ∨
     e = "no image data found" ∨ e = "bad marker" ∨ e = "invalid decoder state" then
    .headerError
  else if e = "bad table id" ∨ e = "too many huffman codes" then .tableError
  else if e = "output buffer too large" then .resourceLimitExceeded
  else .other

/-- SOI followed by a minimal SOF0: baseline, 8 x 8 pixels, one component
(id 1, 1x1 sampling, quantization table 0). -/
def bytesSofOnly : List Nat :=
  [0xFF, 0xD8,
   0xFF, 0xC0, 0x00, 0x0B, 0x08, 0x00, 0x08, 0x00, 0x08, 0x01, 0x01, 0x11, 0x00]

/-- Same as `bytesSofOnly` but the SOF declares width 0: `motion_jpeg_parse_sof`
accepts it (so the probe answers true), while `motion_jpeg_load_dc_only`
rejects it with "invalid SOF data". -/
def bytesSofZeroWidth : List Nat :=
  [0xFF, 0xD8,
   0xFF, 0xC0, 0x00, 0x0B, 0x08, 0x00, 0x08, 0x00, 0x00, 0x01, 0x01, 0x11, 0x00]

/-- A complete minimal JPEG: SOI; SOF0 (8 x 8, one component); DHT (one
DC-class table, id 0, a single code of length 1 for symbol 0); DQT (8-bit
table 0, all coefficients 1); SOS (one component, DC table 0) followed by
one entropy byte 0x00 whose first bit decodes symbol 0 (differential 0). -/
def bytesTinyJpeg : List Nat :=
  [0xFF, 0xD8,
   0xFF, 0xC0, 0x00, 0x0B, 0x08, 0x00, 0x08, 0x00, 0x08, 0x01, 0x01, 0x11, 0x00,
   0xFF, 0xC4, 0x00, 0x14, 0x00,
     0x01, 0x00, 0x00, 0x00, 0x00, 0x00, 0x00, 0x00,
     0x00, 0x00, 0x00, 0x00, 0x00, 0x00, 0x00, 0x00,
     0x00,
   0xFF, 0xDB, 0x00, 0x43, 0x00,
     0x01, 0x01, 0x01, 0x01, 0x01, 0x01, 0x01, 0x01,
     0x01, 0x01, 0x01, 0x01, 0x01, 0x01, 0x01, 0x01,
     0x01, 0x01, 0x01, 0x01, 0x01, 0x01, 0x01, 0x01,
     0x01, 0x01, 0x01, 0x01, 0x01, 0x01, 0x01, 0x01,
     0x01, 0x01, 0x01, 0x01, 0x01, 0x01, 0x01, 0x01,
     0x01, 0x01, 0x01, 0x01, 0x01, 0x01, 0x01, 0x01,
     0x01, 0x01, 0x01, 0x01, 0x01, 0x01, 0x01, 0x01,
     0x01, 0x01, 0x01, 0x01, 0x01, 0x01, 0x01, 0x01,
   0xFF, 0xDA, 0x00, 0x08, 0x01, 0x01, 0x00, 0x00, 0x3F, 0x00,
   0x00]

/-- The decoder state after the walk over `bytesSofOnly` parses its SOF. -/
def jSofOnly : motion_jpeg_decoder :=
  { motion_jpeg_decoder_init with
      width := 8, height := 8, components := 1, precision := 8
      comp_id := [1, 0, 0, 0], comp_h := [1, 0, 0, 0], comp_v := [1, 0, 0, 0]
      comp_quant := [0, 0, 0, 0]
      mcu_w := 8, mcu_h := 8, mcus_per_row := 1, mcus_per_col := 1 }

/-- A validated decoder state with a maximal 1000 x 1000 MCU grid, one
component and no huffman tables: its low-resolution buffer is 1,000,000
bytes (under the 16 MiB cap) while the upsampled output-pixel-buffer size
of the spec, 8000 x 8000 x 1 = 64,000,000 bytes, exceeds the cap. -/
def jGridMax : motion_jpeg_decoder :=
  { motion_jpeg_decoder_init with
      width := 8000, height := 8000, components := 1, precision := 8
      mcu_w := 8, mcu_h := 8, mcus_per_row := 1000, mcus_per_col := 1000 }

/-- A decoder state whose DC table 0 has one length-1 code for symbol 5:
the all-ones bit stream matches no code and exhausts all 16 lengths. -/
def jOneCode : motion_jpeg_decoder :=
  { motion_jpeg_decoder_init with
      width := 8, height := 8, components := 1, precision := 8
      comp_id := [1, 0, 0, 0]
      mcu_w := 8, mcu_h := 8, mcus_per_row := 1, mcus_per_col := 1
      dc_huffman :=
        [{ code_size := 0 :: 1 :: List.replicate 15 0
           code_value := [0], huffval := [5], num_codes := 1 },
         motion_huffman_empty] }

/-- The length-counts of the spec's concrete canonical-code example:
no length-1 code, one length-2 code, two length-3 codes. -/
def htLen233 : motion_huffman_table :=
  { code_size := [0, 0, 1, 2], code_value := [], huffval := [10, 20, 30],
    num_codes := 3 }

/-- A degenerate but parser-accepted count vector (total 3 <= 256): two
length-1 codes and one length-16 code.  The running code reaches
2 * 2^15 = 65536 at length 16 (the counts are Kraft-infeasible, which
`motion_jpeg_parse_dht` does not check), so the value stored into the
16-bit `code_value` array wraps to 0. -/
def htLen16Wrap : motion_huffman_table :=
  { code_size := [0, 2, 0, 0, 0, 0, 0, 0, 0, 0, 0, 0, 0, 0, 0, 0, 1]
    code_value := [], huffval := [1, 2, 3], num_codes := 3 }

/-- Symbol counts of lengths `i, i+1, ..., L-1` (the flat-array offset at
which `motion_build_codes cs code i` stores the first length-`L` code). -/
def motion_code_offset_from (cs : List Nat) (i L : Nat) : Nat :=
  (((List.range (L - i)).map fun t => cs.getD (i + t) 0)).sum

/-- The running code at the start of length `L`, starting from running code
`code` at length `i` (forward version of `motion_code_start` used by the
induction). -/
def motion_code_start_from (cs : List Nat) : Nat → Nat → Nat → Nat
  | code, _, 0 => code
  | code, i, rem + 1 => motion_code_start_from cs ((code + cs.getD i 0) <<< 1) (i + 1) rem

/-! # Theorems -/

theorem motion_foldl_const {α β : Type} (f : α → β → α) (s : α) (l : List β)
    (h : ∀ s a, f s a = s) : l.foldl f s = s := by
  induction l generalizing s with
  | nil => rfl
  | cons a t ih => simp [List.foldl_cons, h, ih]

/-! ## C4: the DC differential threshold rule -/

/-- Claim C4 (corrected): for every Huffman symbol `s` in 1..15 and every
`s`-bit raw value `v`, the DC differential computed by
`motion_stbi_decode_jpeg_dc_only` equals `v - (2^s - 1)` when
`v < 2^(s-1)` and `v` unchanged otherwise.  (The symbol-0 case never calls
this computation: `motion_decode_coeff` uses the literal differential 0
there.)  The spec's second representative case is corrected: `s=3, v=3`
gives differential -4, not 3; `s=3, v=2` gives -5 as documented. -/
theorem motion_dc_diff_threshold_rule :
    (∀ s v : Nat, 1 ≤ s → s ≤ 15 → v < 2 ^ s →
      motion_dc_diff s v =
        if v < 2 ^ (s - 1) then (v : Int) - (2 ^ s - 1) else (v : Int)) ∧
    motion_dc_diff 3 3 = -4 ∧ motion_dc_diff 3 2 = -5 := by
  refine ⟨?_, by decide, by decide⟩
  intro s v _ _ _
  unfold motion_dc_diff
  have e1 : (1 <<< (s - 1) : Nat) = 2 ^ (s - 1) := by
    rw [Nat.shiftLeft_eq, one_mul]
  have e2 : (1 <<< s : Nat) = 2 ^ s := by
    rw [Nat.shiftLeft_eq, one_mul]
  rw [e1, e2]
  by_cases hc : v < 2 ^ (s - 1)
  · rw [if_pos (by exact_mod_cast hc), if_pos hc]
    push_cast
    ring
  · rw [if_neg (by exact_mod_cast hc), if_neg hc]

/-- Claim C4, counterexample to the claim as stated: the spec's
representative case `s=3, v=3 → differential 3` does not hold — the
threshold rule (and the code) give -4. -/
theorem motion_dc_diff_rep_case_cex : ¬ motion_dc_diff 3 3 = 3 := by decide

/-- Claim C4, witness: the threshold rule applied at `s = 3`, `v = 5`
(top bit set, so the differential is `v` itself). -/
theorem motion_dc_diff_threshold_rule_witness :
    motion_dc_diff 3 5 =
      if 5 < 2 ^ (3 - 1) then (5 : Int) - (2 ^ 3 - 1) else (5 : Int) :=
  motion_dc_diff_threshold_rule.1 3 5 (by decide) (by decide) (by decide)

/-! ## C3: bit reader behaviour at a marker -/

/-- Claim C3 (code_bug): `next_bit` is MSB-first and unstuffs 0xFF 0x00
(first two conjuncts exercise this on single-byte streams), but hitting an
0xFF followed by a non-zero byte is NOT sticky: on the stream
FF 01 80 the first read returns 0 after consuming the two marker bytes, and
the very next read consumes the following byte 0x80 and returns its MSB 1 —
the source's own comment says "we'll treat this as end of data", but no
end-of-data state is stored, contradicting both the comment and the spec's
"subsequent bit reads yield 0 rather than consuming marker bytes". -/
theorem motion_bit_reader_marker_not_sticky :
    ((motion_bit_reader_get_bits (motion_bit_reader_init [0xB7]) 8).1 = 0xB7) ∧
    ((motion_bit_reader_get_bits (motion_bit_reader_init [0xFF, 0x00]) 8).1 = 0xFF) ∧
    ((motion_bit_reader_get_bit (motion_bit_reader_init [0xFF, 0x01, 0x80])).1 = 0) ∧
    ((motion_bit_reader_get_bit (motion_bit_reader_init [0xFF, 0x01, 0x80])).2.stream
      = [0x80]) ∧
    ((motion_bit_reader_get_bit
        (motion_bit_reader_get_bit (motion_bit_reader_init [0xFF, 0x01, 0x80])).2).1
      = 1) := by decide

/-! ## C2: the single-slot cache ignores the decode mode -/

/-- Claim C2, counterexample: decode path "a.jpg" in mode
`MOTION_MODE_DC_ONLY` (populating the slot with the DC-decoded, upsampled
buffer), then request "a.jpg" in mode `MOTION_MODE_FULL`: the second call
returns exactly the DC-tagged cached buffer — even with an empty byte
stream, proving no decode ran — so a path match alone is a cache hit and
the mode mismatch does not prevent it. -/
theorem motion_cache_mode_mismatch_cex :
    ((motion_stbi_load (fun _ => none) "a.jpg" bytesTinyJpeg MOTION_MODE_DC_ONLY
        (some (motion_stbi_buffer_create 16))).1 =
      some (8, 8, 1, List.replicate 64 128)) ∧
    ((motion_stbi_load (fun _ => none) "a.jpg" [] MOTION_MODE_FULL
        (motion_stbi_load (fun _ => none) "a.jpg" bytesTinyJpeg MOTION_MODE_DC_ONLY
          (some (motion_stbi_buffer_create 16))).2).1 =
      some (8, 8, 1, List.replicate 64 128)) ∧
    MOTION_MODE_FULL ≠ MOTION_MODE_DC_ONLY := by decide

/-- Claim C2 (corrected): a request is a cache hit whenever the slot's
stored filename is non-empty and equal to the requested path — the decode
mode is not consulted at all (the slot records no mode), so the same
cached buffer is returned for EVERY mode. -/
theorem motion_cache_hit_ignores_mode
    (fallback : String → Option (Nat × Nat × Nat × List Nat))
    (filename : String) (bytes : List Nat) (motion_mode : Nat)
    (b : motion_buffer_t)
    (hlen : 0 < b.filename.length) (hname : b.filename = filename) :
    (motion_stbi_load fallback filename bytes motion_mode (some b)).1 =
      some (b.width, b.height, b.channels, b.data) := by
  unfold motion_stbi_load
  dsimp only
  rw [if_pos ⟨hlen, hname⟩]

/-- Claim C2, witness: the cache-hit law applied to a concrete slot tagged
"a.jpg" and a request in mode `MOTION_MODE_QUARTER`. -/
theorem motion_cache_hit_ignores_mode_witness :
    (motion_stbi_load (fun _ => none) "a.jpg" [] MOTION_MODE_QUARTER
        (some { motion_stbi_buffer_create 16 with
                  data := [7]
                  width := 1
                  height := 1
                  channels := 1
                  filename := "a.jpg" })).1 =
      some (1, 1, 1, [7]) :=
  motion_cache_hit_ignores_mode (fun _ => none) "a.jpg" [] MOTION_MODE_QUARTER
    _ (by decide) (by decide)

/-! ## C5: the 16 MiB cap guards the DC grid buffer, not the upsampled one -/

/-- Claim C5, counterexample: for the validated maximal decoder state
`jGridMax` (1000 x 1000 MCU grid, one component), the Output Pixel Buffer
of the spec measures `grid_w*8 x grid_h*8 x components` = 64,000,000 bytes,
well over the 16 MiB cap, yet `motion_stbi_decode_jpeg_dc_only` does not
reject — it returns a buffer: the cap is only compared against the
low-resolution `grid_w x grid_h x components` size (1,000,000 bytes
here). -/
theorem motion_output_cap_not_on_upsampled_cex :
    16777216 < (jGridMax.mcus_per_row * 8) * (jGridMax.mcus_per_col * 8) *
      jGridMax.components ∧
    (motion_stbi_decode_jpeg_dc_only jGridMax (motion_bit_reader_init [])).isOk
      = true := by
  constructor
  · decide
  · simp only [motion_stbi_decode_jpeg_dc_only]
    rw [if_neg (by decide), if_neg (by decide)]
    rfl

/-- Claim C5 (corrected): the size compared against the 16 MiB cap in
`motion_stbi_decode_jpeg_dc_only` is the low-resolution DC buffer
`grid_w x grid_h x components`, which under the decoder-state validation
(grid at most 1000 x 1000, at most 4 components) never exceeds 4,000,000
bytes — so a validated decode is never rejected with
"output buffer too large" and always returns a buffer.  The upsampled
`grid_w*8 x grid_h*8 x components` buffer of `motion_stbi_load` is not
subject to any byte-size cap (only to the 1000/8000 dimension checks). -/
theorem motion_dc_buffer_cap_amended (j : motion_jpeg_decoder)
    (br : motion_bit_reader)
    (hc1 : 0 < j.components) (hc4 : j.components ≤ 4)
    (hr1 : 0 < j.mcus_per_row) (hr2 : j.mcus_per_row ≤ 1000)
    (hl1 : 0 < j.mcus_per_col) (hl2 : j.mcus_per_col ≤ 1000) :
    motion_decode_buffer_size j ≤ 4000000 ∧
    (motion_stbi_decode_jpeg_dc_only j br).isOk = true := by
  have hsize : motion_decode_buffer_size j ≤ 4000000 := by
    have h1 : j.mcus_per_row * j.mcus_per_col ≤ 1000 * 1000 :=
      Nat.mul_le_mul hr2 hl2
    have h2 : j.mcus_per_row * j.mcus_per_col * j.components ≤ 1000000 * 4 :=
      Nat.mul_le_mul h1 hc4
    simpa [motion_decode_buffer_size] using h2
  refine ⟨hsize, ?_⟩
  simp only [motion_stbi_decode_jpeg_dc_only]
  rw [if_neg (by omega), if_neg (by omega)]
  rfl

/-- Claim C5, witness: the amended cap law applied to the 8 x 8, one
component decoder state `jSofOnly`. -/
theorem motion_dc_buffer_cap_amended_witness :
    motion_decode_buffer_size jSofOnly ≤ 4000000 ∧
    (motion_stbi_decode_jpeg_dc_only jSofOnly (motion_bit_reader_init [])).isOk
      = true :=
  motion_dc_buffer_cap_amended jSofOnly (motion_bit_reader_init [])
    (by decide) (by decide) (by decide) (by decide) (by decide) (by decide)

/-! ## C9: an undecodable Huffman symbol skips one coefficient -/

/-- Claim C9 (confirmed): when `motion_jpeg_decode_huffman` finds no
well-formed symbol within 16 bits (result -1), the per-coefficient step of
`motion_stbi_decode_jpeg_dc_only` leaves the component's DC predictor and
the output buffer untouched, advancing only the bit reader — the decode is
not aborted, since the step is a total function and the MCU loop proceeds
to the next coefficient. -/
theorem motion_huffman_failure_skips_coeff (j : motion_jpeg_decoder)
    (mcu_y mcu_x comp : Nat) (st : motion_entropy_state)
    (br' : motion_bit_reader)
    (hcomp : comp < 4)
    (htab : j.comp_dc_table.getD comp 0 < 2)
    (hne : (j.dc_huffman.getD (j.comp_dc_table.getD comp 0)
      motion_huffman_empty).num_codes ≠ 0)
    (hdec : motion_jpeg_decode_huffman st.br
      (j.dc_huffman.getD (j.comp_dc_table.getD comp 0) motion_huffman_empty) =
      (-1, br')) :
    motion_decode_coeff j mcu_y mcu_x comp st = { st with br := br' } := by
  have h4 : ¬ (4 ≤ comp) := by omega
  have h2 : ¬ (2 ≤ j.comp_dc_table.getD comp 0) := by omega
  simp only [motion_decode_coeff, hdec]
  rw [if_neg h4, if_neg h2, if_neg hne, if_pos (by norm_num)]

/-- Claim C9, witness: the decoder state `jOneCode` holds a single
length-1 code; the all-ones stream AA AA matches nothing through length 16,
`motion_jpeg_decode_huffman` returns -1 having consumed exactly 16 bits,
and the coefficient step only advances the reader. -/
theorem motion_huffman_failure_skips_coeff_witness :
    motion_decode_coeff jOneCode 0 0 0
      { dc_pred := [0, 0, 0, 0], out := [128],
        br := motion_bit_reader_init [0xAA, 0xAA] } =
      { dc_pred := [0, 0, 0, 0], out := [128],
        br := { bit_buffer := 43520, bits_left := 0, stream := [] } } :=
  motion_huffman_failure_skips_coeff jOneCode 0 0 0
    { dc_pred := [0, 0, 0, 0], out := [128],
      br := motion_bit_reader_init [0xAA, 0xAA] }
    { bit_buffer := 43520, bits_left := 0, stream := [] }
    (by decide) (by decide) (by decide) (by decide)

/-! ## C10: every output-buffer store is in bounds -/

/-- Claim C10 (confirmed): under the decoder-state validation of
`motion_stbi_decode_jpeg_dc_only` (1..4 components, MCU grid at most
1000 x 1000), every store index `(mcu_y * out_w + mcu_x) * components + comp`
produced during the MCU loop (`mcu_y < mcus_per_col`, `mcu_x < mcus_per_row`,
`comp < components`) is strictly below the allocated `buffer_size`, and the
buffer is fully initialized to 128 (length exactly `buffer_size`) before
any decode write — so no output-buffer access is out of bounds. -/
theorem motion_dc_store_in_bounds (j : motion_jpeg_decoder)
    (hc1 : 0 < j.components) (hc4 : j.components ≤ 4)
    (hr1 : 0 < j.mcus_per_row) (hr2 : j.mcus_per_row ≤ 1000)
    (hl1 : 0 < j.mcus_per_col) (hl2 : j.mcus_per_col ≤ 1000)
    (mcu_y mcu_x comp : Nat)
    (hy : mcu_y < j.mcus_per_col) (hx : mcu_x < j.mcus_per_row)
    (hcomp : comp < j.components) :
    motion_out_idx j mcu_y mcu_x comp < motion_decode_buffer_size j ∧
    (motion_decode_init_buffer j).length = motion_decode_buffer_size j := by
  constructor
  · unfold motion_out_idx motion_decode_buffer_size
    have h1 : mcu_y * j.mcus_per_row + mcu_x + 1 ≤ j.mcus_per_row * j.mcus_per_col := by
      have h2 : mcu_y * j.mcus_per_row + mcu_x + 1 ≤ (mcu_y + 1) * j.mcus_per_row := by
        rw [add_one_mul]
        omega
      have h3 : (mcu_y + 1) * j.mcus_per_row ≤ j.mcus_per_col * j.mcus_per_row :=
        Nat.mul_le_mul_right _ hy
      calc mcu_y * j.mcus_per_row + mcu_x + 1 ≤ (mcu_y + 1) * j.mcus_per_row := h2
        _ ≤ j.mcus_per_col * j.mcus_per_row := h3
        _ = j.mcus_per_row * j.mcus_per_col := Nat.mul_comm _ _
    calc (mcu_y * j.mcus_per_row + mcu_x) * j.components + comp
        < (mcu_y * j.mcus_per_row + mcu_x + 1) * j.components := by
          rw [add_one_mul]
          omega
      _ ≤ j.mcus_per_row * j.mcus_per_col * j.components :=
          Nat.mul_le_mul_right _ h1
  · simp [motion_decode_init_buffer]

/-- Claim C10, witness: the in-bounds law at the 8 x 8 single-component
state `jSofOnly` and the only coefficient (0,0,0). -/
theorem motion_dc_store_in_bounds_witness :
    motion_out_idx jSofOnly 0 0 0 < motion_decode_buffer_size jSofOnly ∧
    (motion_decode_init_buffer jSofOnly).length =
      motion_decode_buffer_size jSofOnly :=
  motion_dc_store_in_bounds jSofOnly (by decide) (by decide) (by decide)
    (by decide) (by decide) (by decide) 0 0 0 (by decide) (by decide) (by decide)

/-! ## C8: canonical Huffman code assignment -/

theorem motion_code_offset_from_succ (cs : List Nat) (i L : Nat) (h : i < L) :
    motion_code_offset_from cs i L =
      cs.getD i 0 + motion_code_offset_from cs (i + 1) L := by
  unfold motion_code_offset_from
  have h1 : L - i = (L - (i + 1)) + 1 := by omega
  rw [h1, List.range_succ_eq_map]
  simp only [List.map_cons, List.map_map, List.sum_cons, Nat.add_zero]
  congr 1
  apply congrArg
  apply List.map_congr_left
  intro a _
  simp only [Function.comp_apply, Nat.succ_eq_add_one]
  congr 1
  omega

theorem motion_build_codes_from_get (cs : List Nat) :
    ∀ (n code i rem p : Nat), n < rem → p < cs.getD (i + n) 0 →
      (motion_build_codes_from cs code i rem)[motion_code_offset_from cs i (i + n) + p]? =
        some ((motion_code_start_from cs code i n + p) % 65536) := by
  intro n
  induction n with
  | zero =>
    intro code i rem p hrem hp
    obtain ⟨r, rfl⟩ : ∃ r, rem = r + 1 := ⟨rem - 1, by omega⟩
    simp only [Nat.add_zero] at hp
    have hoff : motion_code_offset_from cs i (i + 0) = 0 := by
      unfold motion_code_offset_from
      simp
    rw [hoff]
    simp only [motion_build_codes_from, motion_code_start_from, Nat.zero_add]
    rw [List.getElem?_append]
    rw [if_pos (by simpa using hp)]
    rw [List.getElem?_map, List.getElem?_range hp]
    rfl
  | succ n ih =>
    intro code i rem p hrem hp
    obtain ⟨r, rfl⟩ : ∃ r, rem = r + 1 := ⟨rem - 1, by omega⟩
    have hp' : p < cs.getD (i + 1 + n) 0 := by
      have he : i + 1 + n = i + (n + 1) := by omega
      rw [he]
      exact hp
    have hoff := motion_code_offset_from_succ cs i (i + (n + 1)) (by omega)
    simp only [motion_build_codes_from]
    rw [hoff]
    rw [List.getElem?_append_right (by simp; omega)]
    have hlen : ((List.range (cs.getD i 0)).map fun t => (code + t) % 65536).length
        = cs.getD i 0 := by simp
    rw [hlen]
    have hidx : cs.getD i 0 + motion_code_offset_from cs (i + 1) (i + (n + 1)) + p
        - cs.getD i 0 = motion_code_offset_from cs (i + 1) (i + (n + 1)) + p := by
      omega
    rw [hidx]
    have he2 : i + (n + 1) = i + 1 + n := by omega
    rw [he2]
    have := ih ((code + cs.getD i 0) <<< 1) (i + 1) r p (by omega) hp'
    rw [this]
    rfl

theorem motion_code_start_from_succ (cs : List Nat) :
    ∀ (n code i : Nat), motion_code_start_from cs code i (n + 1) =
      (motion_code_start_from cs code i n + cs.getD (i + n) 0) <<< 1 := by
  intro n
  induction n with
  | zero =>
    intro code i
    simp [motion_code_start_from]
  | succ n ih =>
    intro code i
    have h1 : motion_code_start_from cs code i (n + 1 + 1) =
        motion_code_start_from cs ((code + cs.getD i 0) <<< 1) (i + 1) (n + 1) := rfl
    rw [h1, ih]
    have h2 : i + 1 + n = i + (n + 1) := by omega
    rw [h2]
    rfl

theorem motion_code_start_from_eq (cs : List Nat) :
    ∀ L : Nat, 1 ≤ L → motion_code_start_from cs 0 1 (L - 1) = motion_code_start cs L := by
  intro L
  induction L with
  | zero => intro h; omega
  | succ L ih =>
    intro _
    by_cases hL : 1 ≤ L
    · have h1 : L + 1 - 1 = (L - 1) + 1 := by omega
      rw [h1, motion_code_start_from_succ, ih hL]
      have h2 : 1 + (L - 1) = L := by omega
      rw [h2]
      obtain ⟨L', rfl⟩ : ∃ L', L = L' + 1 := ⟨L - 1, by omega⟩
      show (motion_code_start cs (L' + 1) + cs.getD (L' + 1) 0) <<< 1 =
        motion_code_start cs (L' + 2)
      rw [Nat.shiftLeft_eq, pow_one, motion_code_start]
    · have h0 : L = 0 := by omega
      subst h0
      rfl

theorem motion_code_offset_from_eq (cs : List Nat) (L : Nat) :
    motion_code_offset_from cs 1 L = motion_code_offset cs L := by
  unfold motion_code_offset_from motion_code_offset
  apply congrArg
  apply List.map_congr_left
  intro a _
  congr 1
  omega

/-- Claim C8, counterexample to the claim as stated: for the
parser-accepted counts {1:2, 16:1} of `htLen16Wrap`, the shift-and-increment
rule makes the running code at length 16 equal to 65536, but the program
stores that value into the `motion_stbi_uint16 code_value[]` array, which
wraps it to 0 — the length-16 symbol does NOT receive the running-code
value the claim assigns it. -/
theorem motion_huffman_code_wrap_cex :
    motion_code_start htLen16Wrap.code_size 16 + 0 = 65536 ∧
    (motion_jpeg_build_huffman_table htLen16Wrap).code_value[motion_code_offset
        htLen16Wrap.code_size 16 + 0]? = some 0 ∧
    ¬ ((motion_jpeg_build_huffman_table htLen16Wrap).code_value[motion_code_offset
        htLen16Wrap.code_size 16 + 0]? =
      some (motion_code_start htLen16Wrap.code_size 16 + 0)) := by decide

/-- Claim C8 (corrected): `motion_jpeg_build_huffman_table` assigns
canonical codes by the shift-and-increment rule — the code starts at 0; the
`count[L]` symbols of each length `L` receive consecutive values starting
at the running code (one increment per symbol), and after each length the
running code is shifted left once — but each value is STORED truncated into
the 16-bit `code_value` array: the symbol at flat position `offset(L) + p`
(with `offset(L)` the number of symbols of lengths below `L`) receives
value `(start(L) + p) mod 2^16`, where `start(1) = 0` and
`start(L+1) = (start(L) + count[L]) * 2`.  For every count vector whose
running code stays below 2^16 — all Kraft-feasible tables — the stored
values are exactly `start(L) + p`.  For the concrete counts {1:0, 2:1, 3:2}
the produced values are `[0, 2, 3]`: the sole length-2 symbol gets code 0
in 2 bits ("00"), the two length-3 symbols get codes 2 and 3 in 3 bits
("010" and "011"). -/
theorem motion_huffman_canonical_codes :
    (∀ (ht : motion_huffman_table) (L p : Nat), 1 ≤ L → L ≤ 16 →
      p < ht.code_size.getD L 0 →
      (motion_jpeg_build_huffman_table ht).code_value[motion_code_offset
          ht.code_size L + p]? =
        some ((motion_code_start ht.code_size L + p) % 65536)) ∧
    (motion_jpeg_build_huffman_table htLen233).code_value = [0, 2, 3] := by
  constructor
  · intro ht L p h1 h16 hp
    have hL : L = 1 + (L - 1) := by omega
    have hget := motion_build_codes_from_get ht.code_size (L - 1) 0 1 16 p
      (by omega) (by rw [← hL]; exact hp)
    rw [← hL] at hget
    rw [motion_code_offset_from_eq] at hget
    rw [motion_code_start_from_eq ht.code_size L h1] at hget
    simpa [motion_jpeg_build_huffman_table, motion_build_codes] using hget
  · decide

/-- Claim C8, witness: the truncated canonical-assignment law at the
concrete counts {1:0, 2:1, 3:2}, length 3, second symbol (flat position
1 + 1, value `(motion_code_start 3 + 1) % 65536 = 3`, bits "011"). -/
theorem motion_huffman_canonical_codes_witness :
    (motion_jpeg_build_huffman_table htLen233).code_value[motion_code_offset
        htLen233.code_size 3 + 1]? =
      some ((motion_code_start htLen233.code_size 3 + 1) % 65536) :=
  motion_huffman_canonical_codes.1 htLen233 3 1 (by decide) (by decide) (by decide)

/-! ## C7: output size and nearest-neighbor fill of the DC preview -/

theorem motion_grid_index_lt (gy gx gc R C K : Nat)
    (hy : gy < C) (hx : gx < R) (hc : gc < K) :
    (gy * R + gx) * K + gc < R * C * K := by
  have h1 : gy * R + gx + 1 ≤ R * C := by
    have h2 : gy * R + gx + 1 ≤ (gy + 1) * R := by
      rw [add_one_mul]
      omega
    have h3 : (gy + 1) * R ≤ C * R := Nat.mul_le_mul_right _ hy
    calc gy * R + gx + 1 ≤ (gy + 1) * R := h2
      _ ≤ C * R := h3
      _ = R * C := Nat.mul_comm _ _
  calc (gy * R + gx) * K + gc < (gy * R + gx + 1) * K := by
        rw [add_one_mul]
        omega
    _ ≤ R * C * K := Nat.mul_le_mul_right _ h1

theorem motion_row_append_length (f : Nat → List Nat) (m : Nat) :
    ∀ n, (∀ k, k < n → (f k).length = m) →
      (motion_row_append f n).length = n * m := by
  intro n
  induction n with
  | zero => intro _; simp [motion_row_append]
  | succ n ih =>
    intro h
    simp only [motion_row_append, List.length_append]
    rw [ih (fun k hk => h k (by omega)), h n (by omega), Nat.succ_mul]

theorem motion_row_append_get (f : Nat → List Nat) (m : Nat) :
    ∀ n y jj, (∀ k, k < n → (f k).length = m) → y < n → jj < m →
      (motion_row_append f n)[y * m + jj]? = (f y)[jj]? := by
  intro n
  induction n with
  | zero => intro y jj _ hy _; omega
  | succ n ih =>
    intro y jj hlen hy hjj
    simp only [motion_row_append]
    by_cases hcase : y < n
    · rw [List.getElem?_append]
      rw [if_pos (by
        rw [motion_row_append_length f m n (fun k hk => hlen k (by omega))]
        have h1 : y * m + jj < (y + 1) * m := by
          rw [add_one_mul]
          omega
        have h2 : (y + 1) * m ≤ n * m := Nat.mul_le_mul_right _ (by omega)
        omega)]
      exact ih y jj (fun k hk => hlen k (by omega)) hcase hjj
    · have hyn : y = n := by omega
      subst hyn
      rw [List.getElem?_append_right (by
        rw [motion_row_append_length f m y (fun k hk => hlen k (by omega))]
        omega)]
      rw [motion_row_append_length f m y (fun k hk => hlen k (by omega))]
      have hidx : y * m + jj - y * m = jj := by omega
      rw [hidx]

theorem motion_upsample_dc_length (img : List Nat) (dc_w dc_h dc_comp : Nat) :
    (motion_upsample_dc img dc_w dc_h dc_comp).length =
      (dc_w * 8) * (dc_h * 8) * dc_comp := by
  unfold motion_upsample_dc
  rw [motion_row_append_length _ ((dc_w * 8) * dc_comp) _ (fun k _ => by
    rw [motion_row_append_length _ dc_comp _ (fun k2 _ => by simp)])]
  ring

theorem motion_upsample_dc_get (img : List Nat) (dc_w dc_h dc_comp : Nat)
    (x y c : Nat) (hx : x < dc_w * 8) (hy : y < dc_h * 8) (hc : c < dc_comp) :
    (motion_upsample_dc img dc_w dc_h dc_comp)[(y * (dc_w * 8) + x) * dc_comp + c]? =
      some (img.getD (((y / 8) * dc_w + x / 8) * dc_comp + c) 0) := by
  unfold motion_upsample_dc
  have hidx : (y * (dc_w * 8) + x) * dc_comp + c =
      y * ((dc_w * 8) * dc_comp) + (x * dc_comp + c) := by ring
  rw [hidx]
  rw [motion_row_append_get _ ((dc_w * 8) * dc_comp) _ y (x * dc_comp + c)
    (fun k _ => by
      rw [motion_row_append_length _ dc_comp _ (fun k2 _ => by simp)])
    hy (by
      have h1 : x * dc_comp + c < (x + 1) * dc_comp := by
        rw [add_one_mul]
        omega
      have h2 : (x + 1) * dc_comp ≤ (dc_w * 8) * dc_comp :=
        Nat.mul_le_mul_right _ (by omega)
      omega)]
  rw [motion_row_append_get _ dc_comp _ x c (fun k2 _ => by simp) hx hc]
  rw [List.getElem?_map, List.getElem?_range hc]
  have hcond : (x / 8 < dc_w && y / 8 < dc_h) = true := by
    have h1 : x / 8 < dc_w := by omega
    have h2 : y / 8 < dc_h := by omega
    simp [h1, h2]
  simp only [Option.map_some', if_pos hcond]

theorem motion_sof_read_comps_dims (n : Nat) :
    ∀ (j : motion_jpeg_decoder) (i : Nat) (bytes : List Nat),
      (motion_sof_read_comps j i n bytes).1.width = j.width ∧
      (motion_sof_read_comps j i n bytes).1.height = j.height := by
  induction n with
  | zero => intro j i bytes; exact ⟨rfl, rfl⟩
  | succ n ih =>
    intro j i bytes
    simp only [motion_sof_read_comps]
    exact ih _ _ _

theorem motion_parse_sof_grid (j : motion_jpeg_decoder) (bytes : List Nat)
    (j' : motion_jpeg_decoder) (r : List Nat)
    (h : motion_jpeg_parse_sof j bytes = .ok (j', r)) :
    j'.width ≤ 8 * j'.mcus_per_row ∧ 8 * j'.mcus_per_row < j'.width + 8 ∧
    j'.height ≤ 8 * j'.mcus_per_col ∧ 8 * j'.mcus_per_col < j'.height + 8 := by
  simp only [motion_jpeg_parse_sof] at h
  split at h
  · exact absurd h (by simp)
  · split at h
    · exact absurd h (by simp)
    · rw [Except.ok.injEq, Prod.mk.injEq] at h
      obtain ⟨hj, hr⟩ := h
      subst hj
      refine ⟨?_, ?_, ?_, ?_⟩
      · dsimp only
        rw [(motion_sof_read_comps_dims _ _ _ _).1]
        dsimp only
        omega
      · dsimp only
        rw [(motion_sof_read_comps_dims _ _ _ _).1]
        dsimp only
        omega
      · dsimp only
        rw [(motion_sof_read_comps_dims _ _ _ _).2]
        dsimp only
        omega
      · dsimp only
        rw [(motion_sof_read_comps_dims _ _ _ _).2]
        dsimp only
        omega

theorem motion_load_dc_path (fb : String → Option (Nat × Nat × Nat × List Nat))
    (filename : String) (bytes : List Nat)
    (img : List Nat) (dc_x dc_y dc_comp : Nat)
    (hname : motion_stbi_is_jpeg filename = true)
    (hdc : motion_jpeg_load_dc_only bytes = .ok (img, dc_x, dc_y, dc_comp))
    (hx1 : 0 < dc_x) (hx2 : dc_x ≤ 1000) (hy1 : 0 < dc_y) (hy2 : dc_y ≤ 1000)
    (hc1 : 0 < dc_comp) (hc4 : dc_comp ≤ 4) :
    (motion_stbi_load fb filename bytes MOTION_MODE_DC_ONLY none).1 =
      some (dc_x * 8, dc_y * 8, dc_comp, motion_upsample_dc img dc_x dc_y dc_comp) := by
  unfold motion_stbi_load
  dsimp only
  unfold motion_stbi_load_miss
  rw [if_pos ⟨rfl, hname⟩]
  rw [hdc]
  dsimp only
  rw [if_pos ⟨hx1, hy1, hc1, hc4⟩]
  rw [if_neg (by omega)]

/-- Claim C7 (confirmed): `motion_jpeg_parse_sof` sets the MCU grid to
exactly ceil(width/8) x ceil(height/8) (first conjunct: `8 * mcus_per_row`
is the least multiple of 8 at least `width`, and likewise for rows), and a
successful DC-only decode of `dc_x x dc_y` grid cells and `dc_comp`
components makes `motion_stbi_load` report width `dc_x*8` and height
`dc_y*8` and return the upsampled buffer of exactly
`(dc_x*8) * (dc_y*8) * dc_comp` bytes, in which every pixel `(x, y)` of
every channel carries the single DC sample of its 8x8 grid cell
`(x/8, y/8)` (nearest-neighbor fill). -/
theorem motion_dc_preview_output_size :
    (∀ (j : motion_jpeg_decoder) (bytes : List Nat) (j' : motion_jpeg_decoder)
       (r : List Nat), motion_jpeg_parse_sof j bytes = .ok (j', r) →
       j'.width ≤ 8 * j'.mcus_per_row ∧ 8 * j'.mcus_per_row < j'.width + 8 ∧
       j'.height ≤ 8 * j'.mcus_per_col ∧ 8 * j'.mcus_per_col < j'.height + 8) ∧
    (∀ (fb : String → Option (Nat × Nat × Nat × List Nat)) (filename : String)
       (bytes img : List Nat) (dc_x dc_y dc_comp : Nat),
       motion_stbi_is_jpeg filename = true →
       motion_jpeg_load_dc_only bytes = .ok (img, dc_x, dc_y, dc_comp) →
       0 < dc_x → dc_x ≤ 1000 → 0 < dc_y → dc_y ≤ 1000 →
       0 < dc_comp → dc_comp ≤ 4 → img.length = dc_x * dc_y * dc_comp →
       (motion_stbi_load fb filename bytes MOTION_MODE_DC_ONLY none).1 =
         some (dc_x * 8, dc_y * 8, dc_comp, motion_upsample_dc img dc_x dc_y dc_comp) ∧
       (motion_upsample_dc img dc_x dc_y dc_comp).length =
         (dc_x * 8) * (dc_y * 8) * dc_comp ∧
       (∀ x y c : Nat, x < dc_x * 8 → y < dc_y * 8 → c < dc_comp →
         (motion_upsample_dc img dc_x dc_y dc_comp)[(y * (dc_x * 8) + x) * dc_comp + c]? =
           img[((y / 8) * dc_x + x / 8) * dc_comp + c]?)) := by
  constructor
  · intro j bytes j' r h
    exact motion_parse_sof_grid j bytes j' r h
  · intro fb filename bytes img dc_x dc_y dc_comp hname hdc hx1 hx2 hy1 hy2 hc1 hc4 himg
    refine ⟨motion_load_dc_path fb filename bytes img dc_x dc_y dc_comp hname hdc
      hx1 hx2 hy1 hy2 hc1 hc4, motion_upsample_dc_length img dc_x dc_y dc_comp, ?_⟩
    intro x y c hx hy hc
    rw [motion_upsample_dc_get img dc_x dc_y dc_comp x y c hx hy hc]
    have hidx : ((y / 8) * dc_x + x / 8) * dc_comp + c < img.length := by
      rw [himg]
      exact motion_grid_index_lt (y / 8) (x / 8) c dc_x dc_y dc_comp
        (by omega) (by omega) hc
    rw [List.getElem?_eq_getElem hidx, List.getD_eq_getElem img 0 hidx]

/-- Claim C7, witness: the SOF-grid law on the frame parsed from
`bytesSofOnly` and the full load law on the one-MCU JPEG `bytesTinyJpeg`
(8 x 8 output, 64 bytes, every pixel the single DC sample 128). -/
theorem motion_dc_preview_output_size_witness :
    (jSofOnly.width ≤ 8 * jSofOnly.mcus_per_row ∧
     8 * jSofOnly.mcus_per_row < jSofOnly.width + 8 ∧
     jSofOnly.height ≤ 8 * jSofOnly.mcus_per_col ∧
     8 * jSofOnly.mcus_per_col < jSofOnly.height + 8) ∧
    ((motion_stbi_load (fun _ => none) "t.jpg" bytesTinyJpeg MOTION_MODE_DC_ONLY
        none).1 =
       some (1 * 8, 1 * 8, 1, motion_upsample_dc [128] 1 1 1) ∧
     (motion_upsample_dc [128] 1 1 1).length = (1 * 8) * (1 * 8) * 1 ∧
     (∀ x y c : Nat, x < 1 * 8 → y < 1 * 8 → c < 1 →
       (motion_upsample_dc [128] 1 1 1)[(y * (1 * 8) + x) * 1 + c]? =
         ([128] : List Nat)[((y / 8) * 1 + x / 8) * 1 + c]?)) :=
  ⟨motion_dc_preview_output_size.1 motion_jpeg_decoder_init (bytesSofOnly.drop 4)
     jSofOnly [] (by decide),
   motion_dc_preview_output_size.2 (fun _ => none) "t.jpg" bytesTinyJpeg [128] 1 1 1
     (by decide) (by decide) (by decide) (by decide) (by decide) (by decide)
     (by decide) (by decide) (by decide)⟩

/-! ## C1 and C6: the probe against the decoder and against header-only
parsing -/

theorem motion_probe_eq_walk (fuel : Nat) :
    ∀ (j : motion_jpeg_decoder) (bytes : List Nat),
      motion_probe_loop fuel j bytes =
        (motion_header_walk fuel j bytes).isSome := by
  induction fuel with
  | zero => intro j bytes; rfl
  | succ fuel ih =>
    intro j bytes
    simp only [motion_probe_loop, motion_header_walk]
    by_cases h1 : (motion_stbi_get16be bytes).1 = 0xFFD8
    · simp only [if_pos h1]
      exact ih _ _
    · simp only [if_neg h1]
      by_cases h2 : (motion_stbi_get16be bytes).1 = 0xFFC0
      · simp only [if_pos h2]
        cases hp : motion_jpeg_parse_sof j (motion_stbi_get16be bytes).2 with
        | error e => simp [hp]
        | ok v => rcases v with ⟨j', r'⟩; simp [hp]
      · simp only [if_neg h2]
        by_cases h3 : (motion_stbi_get16be bytes).1 = 0xFFC4
        · simp only [if_pos h3]
          cases hp : motion_jpeg_parse_dht j (motion_stbi_get16be bytes).2 with
          | error e => simp [hp]
          | ok v =>
            rcases v with ⟨j', r'⟩
            simp only [hp]
            exact ih _ _
        · simp only [if_neg h3]
          by_cases h4 : (motion_stbi_get16be bytes).1 = 0xFFDB
          · simp only [if_pos h4]
            cases hp : motion_jpeg_parse_dqt j (motion_stbi_get16be bytes).2 with
            | error e => simp [hp]
            | ok v =>
              rcases v with ⟨j', r'⟩
              simp only [hp]
              exact ih _ _
          · simp only [if_neg h4]
            by_cases h5 : (motion_stbi_get16be bytes).1 = 0xFFD9
            · simp only [if_pos h5]
              rfl
            · simp only [if_neg h5]
              by_cases h6 : (motion_stbi_get16be bytes).1 = 0xFFDA
              · simp only [if_pos h6]
                have hff : ((motion_stbi_get16be bytes).1 &&& 0xFF00) = 0xFF00 := by
                  rw [h6]
                  decide
                by_cases h7 : (motion_stbi_get16be (motion_stbi_get16be bytes).2).1 < 2
                · simp [hff, h7]
                · simp only [hff, if_pos rfl, if_neg h7]
                  rw [ih]
                  cases hw : motion_header_walk fuel j
                      ((motion_stbi_get16be (motion_stbi_get16be bytes).2).2.drop
                        ((motion_stbi_get16be (motion_stbi_get16be bytes).2).1 - 2)) with
                  | none => simp
                  | some v => rcases v with ⟨f', j', r', flag⟩; simp
              · simp only [if_neg h6]
                by_cases h8 : ((motion_stbi_get16be bytes).1 &&& 0xFF00) = 0xFF00
                · simp only [if_pos h8]
                  by_cases h7 : (motion_stbi_get16be (motion_stbi_get16be bytes).2).1 < 2
                  · simp [h7]
                  · simp only [if_neg h7]
                    exact ih _ _
                · simp only [if_neg h8]
                  rfl

theorem motion_probe_reach_sof_aux (fuel : Nat) :
    ∀ (j : motion_jpeg_decoder) (bytes : List Nat) (f' : Nat)
      (j' : motion_jpeg_decoder) (r' : List Nat),
      motion_header_walk fuel j bytes = some (f', j', r', false) →
      motion_jpeg_dc_loop fuel j bytes =
        (if motion_decode_sof_valid j' then motion_jpeg_dc_loop f' j' r'
         else .error "invalid SOF data") := by
  induction fuel with
  | zero =>
    intro j bytes f' j' r' hw
    exact absurd hw (by simp [motion_header_walk])
  | succ fuel ih =>
    intro j bytes f' j' r' hw
    simp only [motion_header_walk] at hw
    simp only [motion_jpeg_dc_loop]
    by_cases h1 : (motion_stbi_get16be bytes).1 = 0xFFD8
    · rw [if_pos h1] at hw ⊢
      exact ih _ _ _ _ _ hw
    · rw [if_neg h1] at hw ⊢
      by_cases h2 : (motion_stbi_get16be bytes).1 = 0xFFC0
      · rw [if_pos h2] at hw ⊢
        cases hp : motion_jpeg_parse_sof j (motion_stbi_get16be bytes).2 with
        | error e => rw [hp] at hw; exact absurd hw (by simp)
        | ok v =>
          rcases v with ⟨j0, r0⟩
          rw [hp] at hw
          simp only [Option.some.injEq, Prod.mk.injEq] at hw
          obtain ⟨hf, hj, hr, -⟩ := hw
          subst hf; subst hj; subst hr
          rfl
      · rw [if_neg h2] at hw ⊢
        by_cases h3 : (motion_stbi_get16be bytes).1 = 0xFFC4
        · rw [if_pos h3] at hw ⊢
          cases hp : motion_jpeg_parse_dht j (motion_stbi_get16be bytes).2 with
          | error e => rw [hp] at hw; exact absurd hw (by simp)
          | ok v =>
            rcases v with ⟨j0, r0⟩
            rw [hp] at hw
            exact ih _ _ _ _ _ hw
        · rw [if_neg h3] at hw ⊢
          by_cases h4 : (motion_stbi_get16be bytes).1 = 0xFFDB
          · rw [if_pos h4] at hw ⊢
            cases hp : motion_jpeg_parse_dqt j (motion_stbi_get16be bytes).2 with
            | error e => rw [hp] at hw; exact absurd hw (by simp)
            | ok v =>
              rcases v with ⟨j0, r0⟩
              rw [hp] at hw
              exact ih _ _ _ _ _ hw
          · rw [if_neg h4] at hw ⊢
            by_cases h5 : (motion_stbi_get16be bytes).1 = 0xFFD9
            · rw [if_pos h5] at hw
              exact absurd hw (by simp)
            · rw [if_neg h5] at hw
              by_cases h6 : (motion_stbi_get16be bytes).1 = 0xFFDA
              · rw [if_pos h6] at hw
                by_cases h7 : (motion_stbi_get16be (motion_stbi_get16be bytes).2).1 < 2
                · rw [if_pos h7] at hw
                  exact absurd hw (by simp)
                · rw [if_neg h7] at hw
                  cases hwx : motion_header_walk fuel j
                      ((motion_stbi_get16be (motion_stbi_get16be bytes).2).2.drop
                        ((motion_stbi_get16be (motion_stbi_get16be bytes).2).1 - 2)) with
                  | none => rw [hwx] at hw; exact absurd hw (by simp)
                  | some v =>
                    rcases v with ⟨a, b, c, flag⟩
                    rw [hwx] at hw
                    simp at hw
              · rw [if_neg h6] at hw ⊢
                rw [if_neg h5]
                by_cases h8 : ((motion_stbi_get16be bytes).1 &&& 0xFF00) = 0xFF00
                · rw [if_pos h8] at hw ⊢
                  by_cases h7 : (motion_stbi_get16be (motion_stbi_get16be bytes).2).1 < 2
                  · rw [if_pos h7] at hw
                    exact absurd hw (by simp)
                  · rw [if_neg h7] at hw ⊢
                    exact ih _ _ _ _ _ hw
                · rw [if_neg h8] at hw
                  exact absurd hw (by simp)

/-- Claim C6, counterexample: the marker stream `bytesSofOnly` parses
through SOF (the header walk succeeds), yet
`motion_stbi_test_dc_compatibility` returns false for it under the
filename "x.png" — the probe first requires a .jpg/.jpeg/.JPG/.JPEG
extension, so it is not true for every file whose marker stream parses. -/
theorem motion_probe_extension_cex :
    (motion_header_walk (bytesSofOnly.length + 1) motion_jpeg_decoder_init
        bytesSofOnly).isSome = true ∧
    motion_stbi_test_dc_compatibility "x.png" bytesSofOnly = false := by decide

/-- Claim C6 (corrected): the probe returns true iff the filename has a
JPEG extension AND the marker walk reaches a first SOF0 whose
`motion_jpeg_parse_sof` succeeds (DHT/DQT definitions on the way parsing
successfully, EOI or a malformed marker before SOF answering false).  The
probe's SOF acceptance checks only the component count (at most 4) and the
header-length consistency: the MCU-grid limit of the decoder is NOT part of
the probe, and an SOS marker before SOF is skipped like an unknown marker
rather than ending the scan. -/
theorem motion_probe_iff_header_scan (filename : String) (bytes : List Nat) :
    motion_stbi_test_dc_compatibility filename bytes =
      (motion_stbi_is_jpeg filename &&
        (motion_header_walk (bytes.length + 1) motion_jpeg_decoder_init
          bytes).isSome) := by
  unfold motion_stbi_test_dc_compatibility
  by_cases h : motion_stbi_is_jpeg filename = true
  · rw [if_pos h, h, Bool.true_and]
    exact motion_probe_eq_walk _ _ _
  · rw [if_neg h]
    rw [Bool.not_eq_true] at h
    rw [h, Bool.false_and]

/-- Claim C1, counterexample: the file "a.jpg" with bytes
`bytesSofZeroWidth` (SOI then an SOF0 declaring width 0) makes the probe
answer true — `motion_jpeg_parse_sof` accepts a zero width — while
`motion_jpeg_load_dc_only` fails on the very same input with
"invalid SOF data", a HeaderError: probe success does not imply the decode
avoids HeaderError. -/
theorem motion_probe_true_decode_header_error_cex :
    motion_stbi_test_dc_compatibility "a.jpg" bytesSofZeroWidth = true ∧
    motion_jpeg_load_dc_only bytesSofZeroWidth = .error "invalid SOF data" ∧
    motion_error_kind "invalid SOF data" = MotionErrKind.headerError := by decide

/-- Claim C1 (corrected): when the marker walk reaches a first SOF0 that
parses, with no SOS marker skipped on the way (the flag `false`), the probe
answers true AND the decoder's marker loop fails with neither HeaderError
nor TableError before or during that SOF: it consumes the identical prefix,
and its entire result is the continuation after the SOF — the post-SOF
validation `motion_decode_sof_valid` (which may still fail with the
HeaderError "invalid SOF data", as the counterexample shows) followed by the
remaining markers.  So a true probe only protects the markers the probe
itself parsed; HeaderError/TableError from SOF validation or from segments
after SOF remain possible. -/
theorem motion_probe_reach_sof (fuel : Nat) (j : motion_jpeg_decoder)
    (bytes : List Nat) (f' : Nat) (j' : motion_jpeg_decoder) (r' : List Nat)
    (hw : motion_header_walk fuel j bytes = some (f', j', r', false)) :
    motion_probe_loop fuel j bytes = true ∧
    motion_jpeg_dc_loop fuel j bytes =
      (if motion_decode_sof_valid j' then motion_jpeg_dc_loop f' j' r'
       else .error "invalid SOF data") := by
  constructor
  · rw [motion_probe_eq_walk, hw]
    rfl
  · exact motion_probe_reach_sof_aux fuel j bytes f' j' r' hw

/-- Claim C1, witness: on `bytesSofOnly` the walk reaches the SOF with 14
fuel left, the parsed frame `jSofOnly` and an empty remainder; the probe
answers true and the decode loop is exactly the validated continuation. -/
theorem motion_probe_reach_sof_witness :
    motion_probe_loop 16 motion_jpeg_decoder_init bytesSofOnly = true ∧
    motion_jpeg_dc_loop 16 motion_jpeg_decoder_init bytesSofOnly =
      (if motion_decode_sof_valid jSofOnly then motion_jpeg_dc_loop 14 jSofOnly []
       else .error "invalid SOF data") :=
  motion_probe_reach_sof 16 motion_jpeg_decoder_init bytesSofOnly 14 jSofOnly []
    (by decide)
